import Mathlib

/-!
Verification of the tool-calling orchestration core of a Slack assistant
(`respondToMessage` and its tool adapters), shallowly embedded in Lean 4.

Pure fragments of the TypeScript source are translated into executable Lean
definitions; awaited external effects (HTTP calls, the Slack client, the
language-model endpoint) are passed in as explicit `Except`-valued oracles, so
that every control-flow decision made by the source is reproduced faithfully.
-/

/-! ## JavaScript-truthiness helpers -/

/-- JS truthiness of a string value: the empty string is falsy. -/
def strTruthy (s : String) : Bool := s != ""

/-- JS `a || b` for an optional string `a`: `undefined` and `""` both fall
through to `b`. -/
def jsOrStr (a : Option String) (b : String) : String :=
  match a with
  | some s => if strTruthy s then s else b
  | none => b

/-- JS `String.prototype.trim()`: strip leading and trailing whitespace. -/
def jsTrim (s : String) : String :=
  ⟨((s.data.dropWhile Char.isWhitespace).reverse.dropWhile Char.isWhitespace).reverse⟩

/-! ## Tool registry gating (respond-to-message.ts, prepareStep) -/

/-- The `activeTools` list returned by `prepareStep` in respond-to-message.ts for a
direct-message conversation (isDirectMessage = true branch). -/
def dmActiveTools : List String :=
  ["updateChatTitleTool",
   "getChannelMessagesTool",
   "updateAgentStatusTool",
   "webSearchTool",
   "knowledgeSearchTool",
   "refreshKnowledgeTool",
   "knowledgeStatsTool",
   "searchProductsTool",
   "getProductDetailTool",
   "checkInventoryTool",
   "getCategoriesAndThemesTool",
   "vectorizeImageTool",
   "vectorizerAccountTool"]

/-- The `activeTools` list returned by `prepareStep` in respond-to-message.ts for a
channel conversation (isDirectMessage = false branch). -/
def channelActiveTools : List String :=
  ["getThreadMessagesTool",
   "getChannelMessagesTool",
   "updateAgentStatusTool",
   "webSearchTool",
   "knowledgeSearchTool",
   "refreshKnowledgeTool",
   "knowledgeStatsTool",
   "searchProductsTool",
   "getProductDetailTool",
   "checkInventoryTool",
   "getCategoriesAndThemesTool",
   "vectorizeImageTool",
   "vectorizerAccountTool"]

/-- The subset-with-substitution property claimed of the two activeTools lists:
every tool enabled in the direct-message branch is either the channel-history
tool (substituted for thread access) or already enabled in the channel branch. -/
def dmSubsetOfChannelModuloHistory : Bool :=
  dmActiveTools.all
    (fun t => t == "getChannelMessagesTool" || channelActiveTools.contains t)

/-! ## Sage Connect identifier validation (sage-connect.ts, part_002) -/

/-- Function `validateProductId` from sage-connect.ts:
`return productId && productId.trim().length > 0` — only non-emptiness after
trimming; no numeric check. -/
def validateProductId (productId : String) : Bool :=
  strTruthy productId && decide (0 < (jsTrim productId).length)

/-- The regular-expression test applied by getProductDetailTool in part_002:
`/^\d+$/.test(productId)` — a non-empty string made only of digits. -/
def isNumericId (s : String) : Bool :=
  decide (0 < s.length) && s.toList.all Char.isDigit

/-- Outcome of the validation phase of a product tool: an early corrective
return, or proceeding to the upstream Sage Connect request. -/
inductive ValidationOutcome
  | reject (msg : String)
  | proceed
deriving DecidableEq, Repr

/-- Validation phase of getProductDetailTool.execute (part_002): the regex
check for a numeric prodEId, then `client.validateProductId`; on either failure
a corrective message is returned and no upstream request is made. -/
def productDetailValidation (productId : String) : ValidationOutcome :=
  if !(isNumericId productId) then
    .reject ("Please use the numeric Product ID (prodEId) like \"783712495\", not the SPC code \"" ++ productId ++ "\". You can find the numeric ID in the search results.")
  else if !(validateProductId productId) then
    .reject ("Invalid product ID: \"" ++ productId ++ "\". Please provide a valid numeric product ID.")
  else
    .proceed

/-- Validation phase of checkInventoryTool.execute (part_002): only
`client.validateProductId` is consulted before the upstream request. -/
def checkInventoryValidation (productId : String) : ValidationOutcome :=
  if !(validateProductId productId) then
    .reject ("Invalid product ID: \"" ++ productId ++ "\". Please provide a valid product ID.")
  else
    .proceed

/-- Whether getProductDetailTool reaches the upstream `client.getProductDetail`
call for the given identifier. -/
def productDetailCallsUpstream (productId : String) : Bool :=
  productDetailValidation productId == .proceed

/-- Whether checkInventoryTool reaches the upstream `client.checkInventory`
call for the given identifier. -/
def checkInventoryCallsUpstream (productId : String) : Bool :=
  checkInventoryValidation productId == .proceed

/-! ## Web search recency filter (part_004, trend-variant webSearchTool) -/

/-- The `dateFilter` enumeration of the trend-variant webSearchTool input
schema in part_004. -/
inductive DateFilter
  | pastDay
  | pastWeek
  | pastMonth
  | past3Months
  | pastYear
  | anyTime
deriving DecidableEq, Repr

/-- One day in milliseconds, as spelled in the source (`24 * 60 * 60 * 1000`). -/
def msPerDay : Int := 24 * 60 * 60 * 1000

/-- The `startPublishedDate` value set on the Exa request by the trend-variant
webSearchTool (part_004): for "any" no bound is set; otherwise the value of
`dateMap[dateFilter]`, i.e. `Date.now()` minus the filter's hard-coded
lookback in milliseconds. `now` stands for `Date.now()`. -/
def startPublishedDate (now : Int) : DateFilter → Option Int
  | .pastDay => some (now - 24 * 60 * 60 * 1000)
  | .pastWeek => some (now - 7 * 24 * 60 * 60 * 1000)
  | .pastMonth => some (now - 30 * 24 * 60 * 60 * 1000)
  | .past3Months => some (now - 90 * 24 * 60 * 60 * 1000)
  | .pastYear => some (now - 365 * 24 * 60 * 60 * 1000)
  | .anyTime => none

/-! ## Product search request construction and validation (part_002,
sage-connect.ts) -/

/-- A JavaScript value stored in a search-criteria property. -/
inductive JsVal
  | str (s : String)
  | num (q : Rat)
  | bool (b : Bool)
deriving DecidableEq, Repr

/-- Arguments accepted by searchProductsTool's input schema (part_002); every
criterion is optional. -/
structure SearchArgs where
  keywords : Option String := none
  categories : Option String := none
  colors : Option String := none
  themes : Option String := none
  priceLow : Option Rat := none
  priceHigh : Option Rat := none
  qty : Option Rat := none
  verified : Option Bool := none
  envFriendly : Option Bool := none

/-- A JavaScript object modelled as an association list from property name to
value, where a present key may still hold `undefined` (`none`). -/
def JsObject := List (String × Option JsVal)

/-- The `search` object literal constructed by searchProductsTool (part_002):
all nine criteria keys are written explicitly, each possibly holding
`undefined`. -/
def buildSearchObject (a : SearchArgs) : JsObject :=
  [("keywords", a.keywords.map .str),
   ("categories", a.categories.map .str),
   ("colors", a.colors.map .str),
   ("themes", a.themes.map .str),
   ("priceLow", a.priceLow.map .num),
   ("priceHigh", a.priceHigh.map .num),
   ("qty", a.qty.map .num),
   ("verified", a.verified.map .bool),
   ("envFriendly", a.envFriendly.map .bool)]

/-- JS `Object.keys`: the list of present property names, regardless of whether
the held value is `undefined`. -/
def objectKeys (o : JsObject) : List String := o.map (·.1)

/-- Read a numeric property of a search object; `undefined` (absent key or
key holding `undefined`) and non-numeric values read as `none`. -/
def getNumProp (o : JsObject) (k : String) : Option Rat :=
  match o.lookup k with
  | some (some (.num q)) => some q
  | _ => none

/-- Result shape of `validateSearchRequest` in sage-connect.ts. -/
structure ValidationResult where
  isValid : Bool
  error : Option String := none
deriving DecidableEq, Repr

/-- Function `validateSearchRequest` from sage-connect.ts, applied to the `search`
member of the request: empty-criteria check via `Object.keys`, then the
price-range check, then the quantity check. -/
def validateSearchRequest (search : JsObject) : ValidationResult :=
  if (objectKeys search).length == 0 then
    ⟨false, some "Search criteria cannot be empty"⟩
  else
    match getNumProp search "priceLow", getNumProp search "priceHigh" with
    | some l, some h =>
        if l > h then
          ⟨false, some "Price low cannot be greater than price high"⟩
        else
          match getNumProp search "qty" with
          | some q => if q ≤ 0 then ⟨false, some "Quantity must be positive"⟩ else ⟨true, none⟩
          | none => ⟨true, none⟩
    | _, _ =>
        match getNumProp search "qty" with
        | some q => if q ≤ 0 then ⟨false, some "Quantity must be positive"⟩ else ⟨true, none⟩
        | none => ⟨true, none⟩

/-! ## Context Carrier and memory-tool subject resolution (memory-tools.ts,
part_003) -/

/-- Structure `ExperimentalContext` as declared in part_004's respondToMessage variant
(channel, thread_ts, botId, userId); the respond-to-message.ts variant omits
`userId`, which is modelled here as that field staying `none`. -/
structure ExperimentalContext where
  channel : Option String := none
  thread_ts : Option String := none
  botId : Option String := none
  userId : Option String := none
deriving DecidableEq, Repr

/-- Value `effectiveUserId` as computed identically by searchMemoryTool,
saveMemoryTool, getAllMemoriesTool and addConversationToMemoryTool in
memory-tools.ts: `user_id || "slack_" + (context?.botId || 'unknown')`. -/
def memoryToolsEffectiveUserId (user_id : Option String)
    (ctx : Option ExperimentalContext) : String :=
  jsOrStr user_id ("slack_" ++ jsOrStr (ctx.bind (·.botId)) "unknown")

/-- Value `effectiveUserId` as computed identically by the four corresponding tools
in the part_003 variant: `user_id || "slack_" + (context?.userId || 'unknown')`. -/
def memoryToolsP3EffectiveUserId (user_id : Option String)
    (ctx : Option ExperimentalContext) : String :=
  jsOrStr user_id ("slack_" ++ jsOrStr (ctx.bind (·.userId)) "unknown")

/-! ## Webhook endpoints (events.post.ts, slack-verify.post.ts, part_008) -/

/-- The fields of an incoming webhook body the endpoints inspect. -/
structure SlackBody where
  bodyType : Option String := none
  challenge : Option String := none
deriving DecidableEq, Repr

/-- The JS guard `body && body.type === 'url_verification' && body.challenge`
shared by the three endpoints (an empty challenge string is falsy). -/
def isUrlVerification (b : SlackBody) : Bool :=
  (b.bodyType == some "url_verification") && (b.challenge.map strTruthy).getD false

/-- The HTTP response produced by an endpoint. -/
inductive EndpointResponse
  | challengeText (c : String)
  | challengeJson (c : String)
  | handlerResponse (r : String)
  | okAck
deriving DecidableEq, Repr

/-- An endpoint run: the response (or a rethrown error) together with whether
the Bolt handler path (createHandler, app.init, handler(request)) was entered. -/
structure EndpointRun where
  response : Except String EndpointResponse
  handlerInvoked : Bool
deriving Repr

/-- events.post.ts: the challenge is answered as plain text before the handler
is created or the app initialized; otherwise the Bolt handler runs and its
error is rethrown by the catch block. `handler` is the awaited outcome of
`handler(request)`. -/
def eventsEndpoint (b : SlackBody) (handler : Except String String) : EndpointRun :=
  if isUrlVerification b then
    ⟨.ok (.challengeText (b.challenge.getD "")), false⟩
  else
    match handler with
    | .ok r => ⟨.ok (.handlerResponse r), true⟩
    | .error e => ⟨.error e, true⟩

/-- slack-verify.post.ts: the challenge is answered as plain text before the
handler is created or the app initialized; otherwise the Bolt handler runs and
any error it throws is caught and converted into the `{ ok: true }`
acknowledgement. -/
def slackVerifyEndpoint (b : SlackBody) (handler : Except String String) : EndpointRun :=
  if isUrlVerification b then
    ⟨.ok (.challengeText (b.challenge.getD "")), false⟩
  else
    match handler with
    | .ok r => ⟨.ok (.handlerResponse r), true⟩
    | .error _ => ⟨.ok .okAck, true⟩

/-- The part_008 endpoint: the challenge is answered as a JSON body carrying
the challenge value before the handler is created or the app initialized;
otherwise the Bolt handler runs and its error is rethrown. -/
def part008Endpoint (b : SlackBody) (handler : Except String String) : EndpointRun :=
  if isUrlVerification b then
    ⟨.ok (.challengeJson (b.challenge.getD "")), false⟩
  else
    match handler with
    | .ok r => ⟨.ok (.handlerResponse r), true⟩
    | .error e => ⟨.error e, true⟩

/-! ## Orchestration loop (respond-to-message.ts with the AI SDK
generateText multi-step loop) -/

/-- A message role in the model-visible transcript. -/
inductive Role
  | system
  | user
  | assistant
  | tool
deriving DecidableEq, Repr

/-- One transcript message. -/
structure Msg where
  role : Role
  content : String
deriving DecidableEq, Repr

/-- The ordered message history of one orchestration run. -/
abbrev Transcript := List Msg

/-- A tool invocation requested by the model. -/
structure ToolCall where
  toolName : String
  input : String
deriving DecidableEq, Repr

/-- One model response: assistant text plus the requested tool calls. -/
structure StepResult where
  text : String
  toolCalls : List ToolCall
deriving DecidableEq, Repr

/-- Terminal states of the loop. -/
inductive TerminalState
  | answered
  | budgetExhausted
deriving DecidableEq, Repr

/-- The observable outcome of a run: final text, number of model calls made,
and the terminal state reached. -/
structure RunOutcome where
  text : String
  modelCalls : Nat
  terminal : TerminalState
deriving DecidableEq, Repr

/-- Modelled from the spec: the multi-step tool-calling loop of the AI SDK's
`generateText`, whose implementation is not part of this repository;
respond-to-message.ts configures it with `stopWhen: stepCountIs(5)`. Per §4.1:
each turn submits the transcript to the model; a model-call failure propagates
uncaught; a response without tool requests terminates the run answered with
that text; otherwise the requested tools are executed in order, the assistant
message and the tool results are appended, and the loop continues unless the
step budget is exhausted, in which case the last produced text (possibly
empty) is returned. `remaining` counts the turns the budget still allows and
`calls` the model calls made so far. -/
def runLoop (model : Transcript → Except String StepResult)
    (execTool : ToolCall → Msg) :
    Nat → Transcript → Nat → Except String RunOutcome
  | 0, _, calls => .ok ⟨"", calls, .budgetExhausted⟩
  | remaining + 1, t, calls =>
    match model t with
    | .error e => .error e
    | .ok step =>
      if step.toolCalls.isEmpty then
        .ok ⟨step.text, calls + 1, .answered⟩
      else if remaining = 0 then
        .ok ⟨step.text, calls + 1, .budgetExhausted⟩
      else
        runLoop model execTool remaining
          (t ++ [⟨.assistant, step.text⟩] ++ step.toolCalls.map execTool)
          (calls + 1)

/-- The generateText run performed by respondToMessage, with the configured
turn cap of 5 (`stopWhen: stepCountIs(5)` in respond-to-message.ts). -/
def respondToMessageRun (model : Transcript → Except String StepResult)
    (execTool : ToolCall → Msg) (messages : Transcript) :
    Except String RunOutcome :=
  runLoop model execTool 5 messages 0

/-- respondToMessage (respond-to-message.ts): returns the loop's final text;
the surrounding try/catch logs any error and rethrows it unchanged. -/
def respondToMessage (model : Transcript → Except String StepResult)
    (execTool : ToolCall → Msg) (messages : Transcript) :
    Except String String :=
  match respondToMessageRun model execTool messages with
  | .ok outcome => .ok outcome.text
  | .error e => .error e

/-- A mock model that always requests one more tool call and produces no
text. -/
def alwaysToolModel : Transcript → Except String StepResult :=
  fun _ => .ok ⟨"", [⟨"search_web", "q"⟩]⟩

/-- A mock model whose endpoint is unreachable. -/
def failingModel : Transcript → Except String StepResult :=
  fun _ => .error "model endpoint unreachable"

/-- A mock tool executor returning a fixed tool-result message. -/
def mockExecTool : ToolCall → Msg := fun _ => ⟨.tool, "result"⟩

/-! ## Tool adapters: webSearchTool (part_004), searchProductsTool (part_002),
vectorizeImageTool (vectorize-image.ts) -/

/-- JS `s.slice(0, n)` on a string. -/
def jsSlice (s : String) (n : Nat) : String := ⟨s.data.take n⟩

/-- Boolean infix test on lists: some suffix of `l` starts with `pat`. -/
def listIsInfix (pat l : List Char) : Bool :=
  l.tails.any (fun t => pat.isPrefixOf t)

/-- JS `s.includes(sub)`. -/
def jsIncludes (s sub : String) : Bool := listIsInfix sub.data s.data

/-- JS `s.toLowerCase()` (ASCII-adequate for the extension checks below). -/
def lowerStr (s : String) : String := ⟨s.data.map Char.toLower⟩

/-- JS number rendering inside template literals, abbreviated: integers render
exactly; other rationals via `toString` rather than exact double formatting. -/
def ratToStr (q : Rat) : String :=
  if q.den == 1 then toString q.num else toString q

/-- JS `q.toFixed(2)`: round to two decimals and render with exactly two
fractional digits. -/
def ratToFixed2 (q : Rat) : String :=
  let n : Int := round (q * 100)
  let sign := if n < 0 then "-" else ""
  let m := n.natAbs
  sign ++ toString (m / 100) ++ "." ++
    (if m % 100 < 10 then "0" else "") ++ toString (m % 100)

/-- JS `q.toFixed(1)`: round to one decimal and render with exactly one
fractional digit. -/
def ratToFixed1 (q : Rat) : String :=
  let n : Int := round (q * 10)
  let sign := if n < 0 then "-" else ""
  let m := n.natAbs
  sign ++ toString (m / 10) ++ "." ++ toString (m % 10)

/-- One Exa search result as consumed by the basic webSearchTool. -/
structure ExaResult where
  title : String
  url : String
  text : Option String
deriving DecidableEq, Repr

/-- External effects awaited by the basic webSearchTool (part_004): the
status-update post and the Exa searchAndContents call, each of which may
reject with an error message. -/
structure WebSearchDeps where
  statusUpdate : Except String Unit
  searchAndContents : Except String (List ExaResult)

/-- Snippet shown for one web result: the first 500 characters of the page
text, with an ellipsis when truncated, or a fixed fallback when the text is
missing or empty (JS truthiness of `result.text`). -/
def webSearchSnippet (r : ExaResult) : String :=
  match r.text with
  | some t =>
    if strTruthy t then
      jsSlice t 500 ++ (if 500 < t.length then "..." else "")
    else "No content preview available"
  | none => "No content preview available"

/-- The per-result formatting of webSearchTool: numbered title, source URL and
snippet, joined with blank lines. -/
def webSearchFormatted (results : List ExaResult) : String :=
  String.intercalate "\n\n"
    (results.enum.map (fun p =>
      "**" ++ toString (p.1 + 1) ++ ". " ++ p.2.title ++ "**\nSource: " ++
        p.2.url ++ "\n" ++ webSearchSnippet p.2))

/-- The success summary assembled by webSearchTool. -/
def webSearchSummary (query : String) (specificDomain : Option String)
    (results : List ExaResult) : String :=
  "Found " ++ toString results.length ++ " web search results for \"" ++ query ++
    "\"" ++
    (match specificDomain with
     | some d => if strTruthy d then " from " ++ d else ""
     | none => "") ++
    ":\n\n" ++ webSearchFormatted results ++
    "\n\n---\n*Web search completed using Exa API*"

/-- The try-block of webSearchTool.execute (part_004, basic variant): status
update, Exa call, then the empty-results message or the formatted summary;
any rejection short-circuits to the catch clause. -/
def webSearchBody (query : String) (specificDomain : Option String)
    (deps : WebSearchDeps) : Except String (List Msg) := do
  _ ← deps.statusUpdate
  let results ← deps.searchAndContents
  if results.isEmpty then
    return [⟨.user, "No web search results found for \"" ++ query ++ "\". Try rephrasing your search query or searching for more general terms."⟩]
  else
    return [⟨.user, webSearchSummary query specificDomain results⟩]

/-- webSearchTool.execute: the try-body together with its catch clause, which
converts any internal error into the descriptive failure Tool Result. -/
def webSearchExecute (query : String) (specificDomain : Option String)
    (deps : WebSearchDeps) : List Msg :=
  match webSearchBody query specificDomain deps with
  | .ok msgs => msgs
  | .error e => [⟨.user, "Web search failed: " ++ e ++ ". Please try again with a different search query."⟩]

/-- A price field as returned by the upstream catalog: a range string or a
number (the schema mixes both). -/
inductive PrcVal
  | str (s : String)
  | num (q : Rat)
deriving DecidableEq, Repr

/-- The fields of one search hit used by searchProductsTool's formatting. -/
structure ProductHit where
  productId : String
  spc : String
  prName : String
  prc : Option PrcVal := none
  thumbPic : Option String := none
  supplierName : Option String := none
  verified : Bool := false
  envFriendly : Bool := false
deriving DecidableEq, Repr

/-- The search response shape consumed by searchProductsTool. -/
structure SearchResponse where
  products : List ProductHit
  totalFound : Nat
deriving DecidableEq, Repr

/-- JS truthiness of the `prc` field: missing, empty string and the number 0
are falsy. -/
def prcTruthy : Option PrcVal → Bool
  | some (.str s) => strTruthy s
  | some (.num q) => q != 0
  | none => false

/-- The `priceDisplay` computation of searchProductsTool: string prices render
as a dollar amount verbatim, numeric prices via toFixed(2), anything falsy as
"Price on request". -/
def priceDisplay (prc : Option PrcVal) : String :=
  if prcTruthy prc then
    match prc with
    | some (.str s) => "$" ++ s
    | some (.num q) => "$" ++ ratToFixed2 q
    | none => "Price on request"
  else "Price on request"

/-- The supplier suffix of a formatted product line. -/
def supplierInfo (p : ProductHit) : String :=
  match p.supplierName with
  | some n => " by " ++ n
  | none => ""

/-- The feature suffix of a formatted product line (verified, eco-friendly). -/
def productFeatures (p : ProductHit) : String :=
  let features :=
    (if p.verified then ["✓ Verified"] else []) ++
    (if p.envFriendly then ["🌱 Eco-Friendly"] else [])
  if features.isEmpty then ""
  else " (" ++ String.intercalate ", " features ++ ")"

/-- One formatted product entry of the text-format results list. -/
def formatProductHit (idx : Nat) (p : ProductHit) : String :=
  let imageInfo :=
    match p.thumbPic with
    | some u => if strTruthy u then "\n🖼️ Image: " ++ u else ""
    | none => ""
  "**" ++ toString (idx + 1) ++ ". " ++ p.prName ++ "**\n- **ID:** " ++
    p.productId ++ " | **SPC:** " ++ p.spc ++ "\n- **Price:** " ++
    priceDisplay p.prc ++ supplierInfo p ++ productFeatures p ++ imageInfo

/-- The `searchTerms` display string: keywords, categories and themes, with
falsy entries filtered out. -/
def searchTermsStr (a : SearchArgs) : String :=
  String.intercalate ", "
    (([a.keywords, a.categories, a.themes].filterMap id).filter strTruthy)

/-- The price-range suffix of the search summary (JS number truthiness: a
0 bound is falsy). -/
def priceFilterStr (a : SearchArgs) : String :=
  let low := match a.priceLow with
    | some q => if q == 0 then none else some q
    | none => none
  let high := match a.priceHigh with
    | some q => if q == 0 then none else some q
    | none => none
  if low.isSome || high.isSome then
    " in $" ++ (match low with | some q => ratToStr q | none => "0") ++ "-" ++
      (match high with | some q => ratToStr q | none => "∞") ++ " range"
  else ""

/-- The success summary assembled by searchProductsTool (text format, top 10
hits). -/
def productSearchSummary (a : SearchArgs) (resp : SearchResponse) : String :=
  let shown := resp.products.take 10
  let formatted :=
    String.intercalate "\n\n" (shown.enum.map (fun p => formatProductHit p.1 p.2))
  "**Found " ++ toString resp.totalFound ++ " promotional products** " ++
    (if strTruthy (searchTermsStr a) then "for \"" ++ searchTermsStr a ++ "\"" else "") ++
    priceFilterStr a ++ "\n\nShowing top " ++ toString shown.length ++
    " results:\n\n" ++ formatted ++
    "\n\n---\n*To get more details about a product, use the product ID number (e.g., \"get details for product 503406121\")*"

/-- External effects awaited by searchProductsTool (part_002): the singleton
client initialization (getSageClient throws when unconfigured), the status
update, and the upstream product search. -/
structure ProductSearchDeps where
  getClient : Except String Unit
  statusUpdate : Except String Unit
  search : Except String SearchResponse

/-- The try-block of searchProductsTool.execute (part_002): client
initialization, request construction and validation (early corrective return
on invalid), status update, upstream search, then the empty-results message
or the formatted summary. -/
def searchProductsBody (a : SearchArgs) (deps : ProductSearchDeps) :
    Except String (List Msg) := do
  _ ← deps.getClient
  let validation := validateSearchRequest (buildSearchObject a)
  if validation.isValid = false then
    return [⟨.user, "Invalid search request: " ++ validation.error.getD ""⟩]
  else do
    _ ← deps.statusUpdate
    let results ← deps.search
    if results.products.isEmpty then
      return [⟨.user, "No promotional products found matching your criteria. Try broadening your search terms or adjusting price ranges."⟩]
    else
      return [⟨.user, productSearchSummary a results⟩]

/-- searchProductsTool.execute: the try-body together with its catch clause. -/
def searchProductsExecute (a : SearchArgs) (deps : ProductSearchDeps) : List Msg :=
  match searchProductsBody a deps with
  | .ok msgs => msgs
  | .error e => [⟨.user, "Product search failed: " ++ e ++ ". Please try again or contact your administrator."⟩]

/-- The fields of a Slack file inspected by vectorizeImageTool. -/
structure SlackFile where
  name : Option String := none
  mimetype : Option String := none
  url_private : Option String := none
deriving DecidableEq, Repr

/-- A Slack message carrying file attachments. -/
structure SlackMessage where
  files : List SlackFile := []
deriving DecidableEq, Repr

/-- The case-insensitive extension test of vectorize-image.ts:
`/\.(jpg|jpeg|png|gif|bmp|tiff)$/i`. -/
def hasImageExtension (name : String) : Bool :=
  let l := lowerStr name
  [".jpg", ".jpeg", ".png", ".gif", ".bmp", ".tiff"].any
    (fun ext => ext.data.isSuffixOf l.data)

/-- The image-file predicate of vectorize-image.ts:
`file.mimetype?.startsWith('image/') || extension test on file.name || ''`. -/
def isImageFile (f : SlackFile) : Bool :=
  (match f.mimetype with
   | some m => "image/".data.isPrefixOf m.data
   | none => false) ||
  hasImageExtension (f.name.getD "")

/-- The message scan of vectorize-image.ts: walk recent messages (most recent
first) and pick the first image attachment that has a truthy url_private;
messages whose matching file lacks a usable URL are skipped. -/
def findUploadedImage : List SlackMessage → Option SlackFile
  | [] => none
  | m :: rest =>
    if m.files.isEmpty then findUploadedImage rest
    else
      match m.files.find? isImageFile with
      | some f =>
        match f.url_private with
        | some u => if strTruthy u then some f else findUploadedImage rest
        | none => findUploadedImage rest
      | none => findUploadedImage rest

/-- Drop everything up to and including the first occurrence of `pat`;
`none` when `pat` does not occur. -/
def dropAfterFirst (pat : List Char) : List Char → Option (List Char)
  | [] => if pat.isEmpty then some [] else none
  | c :: rest =>
    if pat.isPrefixOf (c :: rest) then some ((c :: rest).drop pat.length)
    else dropAfterFirst pat rest

/-- The file-id extraction of vectorize-image.ts,
`url.match(/files-pri\/[^\/]+-([^\/]+)/)` taking capture group 1: after the
first "files-pri/", the following non-slash segment is split at its last
dash; the capture is the non-empty part after that dash (the greedy first
group must also be non-empty). -/
def extractFileId (url : String) : Option String :=
  match dropAfterFirst "files-pri/".data url.data with
  | none => none
  | some rest =>
    let seg := rest.takeWhile (fun c => c ≠ '/')
    let cap := (seg.reverse.takeWhile (fun c => c ≠ '-')).reverse
    if seg.contains '-' && !cap.isEmpty && !(seg.take (seg.length - cap.length - 1)).isEmpty then
      some ⟨cap⟩
    else none

/-- Processing mode accepted by vectorizeImageTool. -/
inductive VectorizeMode
  | production
  | preview
  | test
  | testPreview
deriving DecidableEq, Repr

/-- The options object of vectorizeImageTool after zod defaults. -/
structure VectorizeOptions where
  mode : VectorizeMode := .preview
  maxColors : Option Nat := none
  retentionDays : Nat := 1
deriving DecidableEq, Repr

/-- The vectorizer.ai call result consumed by the success formatting:
content type, output byte length, UTF-8 rendering of the payload (used for
small SVGs), credit accounting and the retention token. -/
structure VectorizeResult where
  contentType : String
  dataLength : Nat
  dataUtf8 : String
  creditsCharged : Rat := 0
  creditsCalculated : Option Rat := none
  imageToken : Option String := none
deriving DecidableEq, Repr

/-- External effects awaited by vectorizeImageTool (vectorize-image.ts): the
three status updates, the recent-message fetch (thread replies or channel
history), whether SLACK_BOT_TOKEN is configured, the files.info download-URL
lookup, and the vectorizer.ai call. -/
structure VectorizeDeps where
  statusLooking : Except String Unit
  statusSearching : Except String Unit
  conversationMessages : Except String (List SlackMessage)
  statusVectorizing : Except String Unit
  botTokenConfigured : Bool
  fileInfoDownloadUrl : Except String (Option String)
  vectorize : Except String VectorizeResult

/-- JS template rendering of a possibly-undefined string. -/
def jsShowOpt (s : Option String) : String := s.getD "undefined"

/-- The "no image found" early return of vectorizeImageTool. -/
def noImageFoundMessage : String :=
  "❌ **No image found!** \n\nI couldn\x27t find any uploaded images in the recent conversation. Please either:\n1. Upload an image file (JPG, PNG, GIF, BMP, TIFF) and ask me to vectorize it\n2. Provide a direct image URL by saying something like: \"Vectorize this image: https://example.com/image.jpg\"\n\n💡 *Make sure the image is uploaded as a file attachment, not just pasted inline.*\n\n🧪 **For testing:** You can also try \"vectorize in test mode\" for free debugging."

/-- The content-type description map of the success formatting. -/
def formatDescription (ct : String) : String :=
  if ct == "image/svg+xml" then "SVG vector graphic"
  else if ct == "application/pdf" then "PDF document"
  else if ct == "image/png" then "PNG image"
  else if ct == "application/postscript" then "EPS file"
  else if ct == "application/dxf" then "DXF file"
  else "vectorized image"

/-- The mode annotation of the success message. -/
def modeInfo : VectorizeMode → String
  | .preview => " (Preview mode - includes watermark)"
  | .test => " (Test mode - includes watermark, no credits charged)"
  | .testPreview => " (Test mode - includes watermark, no credits charged)"
  | .production => ""

/-- The credit-accounting line of the success message (JS number truthiness:
zero calculated credits are falsy). -/
def costInfo (r : VectorizeResult) : String :=
  if 0 < r.creditsCharged then
    "\n💰 **Credits charged:** " ++ ratToStr r.creditsCharged
  else
    match r.creditsCalculated with
    | some q =>
      if q != 0 then "\n💰 **Credits would be charged:** " ++ ratToStr q ++ " (test mode)"
      else ""
    | none => ""

/-- The retention-token line of the success message. -/
def retentionInfo (opts : VectorizeOptions) (r : VectorizeResult) : String :=
  match r.imageToken with
  | some tok =>
    if strTruthy tok then
      "\n📁 **Image Token:** Available for " ++ toString opts.retentionDays ++
        " days for additional formats"
    else ""
  | none => ""

/-- The payload section: small SVGs embedded inline, everything else reported
as file size in KB. -/
def resultContent (r : VectorizeResult) : String :=
  if r.contentType == "image/svg+xml" && r.dataLength < 10000 then
    "\n```" ++ "svg\n" ++ r.dataUtf8 ++ "\n```"
  else
    "\n📄 **File generated:** " ++ formatDescription r.contentType ++ " (" ++
      ratToFixed1 ((r.dataLength : Rat) / 1024) ++ " KB)"

/-- JS `s.charAt(0).toUpperCase() + s.slice(1)`. -/
def capitalizeFirst (s : String) : String :=
  match s.data with
  | [] => ""
  | c :: rest => ⟨Char.toUpper c :: rest⟩

/-- The max-colors line of the success message (0 is falsy and omitted). -/
def maxColorsInfo (o : VectorizeOptions) : String :=
  match o.maxColors with
  | some n => if n != 0 then "🎨 **Max colors:** " ++ toString n else ""
  | none => ""

/-- The success message assembled by vectorizeImageTool. -/
def vectorizeSuccessMessage (opts : VectorizeOptions) (source : String)
    (r : VectorizeResult) : String :=
  "✅ **Image Vectorization Complete**" ++ modeInfo opts.mode ++
    "\n\n🎯 **Input:** Processed " ++ source ++
    "\n📐 **Output:** " ++ capitalizeFirst (formatDescription r.contentType) ++
    "\n" ++ maxColorsInfo opts ++ costInfo r ++ retentionInfo opts r ++
    "\n\n" ++ resultContent r ++ "\n\n" ++
    (if opts.mode == .preview then
      "\n💡 *Tip: Use mode \"production\" for final results without watermark*"
     else "") ++
    "\n" ++
    (match r.imageToken with
     | some tok =>
       if strTruthy tok then
         "\n🔄 *Use the image token to download additional formats at reduced cost*"
       else ""
     | none => "")

/-- The catch clause of vectorizeImageTool.execute: classify the error message
by substring and assemble the failure Tool Result content with targeted
remediation hints. -/
def vectorizeFailureMessage (errorMessage : String) : String :=
  let pair :=
    if jsIncludes errorMessage "credentials not configured" ||
        jsIncludes errorMessage "not configured" then
      ("\n\n🔧 **Configuration Issue**: The vectorizer.ai API credentials are not set up properly.",
       "\n**Admin Action Required:**\n1. Go to Vercel dashboard → Environment Variables\n2. Add: `VECTORIZER_AI_API_ID` with your API ID\n3. Add: `VECTORIZER_AI_API_SECRET` with your API Secret\n4. Redeploy the application\n\n💡 *Get your API credentials from: https://vectorizer.ai/account*")
    else if jsIncludes errorMessage "Failed to fetch Slack file" then
      ("\n\n📁 **File Access Issue**: Could not download the uploaded file.",
       "\n**Please try:**\n1. Make sure the file is a valid image (JPG, PNG, GIF, BMP, TIFF)\n2. Re-upload the image as a file attachment\n3. Check that I have permission to access files in this channel")
    else if jsIncludes errorMessage "API error" || jsIncludes errorMessage "401" ||
        jsIncludes errorMessage "403" then
      ("\n\n🔐 **Authentication Issue**: Invalid or expired API credentials.",
       "\n**Please check:**\n1. API credentials are correct in Vercel environment\n2. Vectorizer.ai account is active\n3. Sufficient credits available\n\nTry: \"What\x27s my vectorizer.ai account status?\" to verify account health.")
    else if jsIncludes errorMessage "429" then
      ("\n\n⏱️ **Rate Limit**: Too many requests to vectorizer.ai API.",
       "\n**Please wait a moment and try again.**")
    else
      ("\n\n❓ **Unexpected Error**: Something went wrong with the vectorization service.",
       "\n**Troubleshooting:**\n1. Try again in a moment (temporary service issue)\n2. Check account status: \"What\x27s my vectorizer.ai account status?\"\n3. Try test mode: Use options with mode set to \"test\"")
  "❌ **Image Vectorization Failed**" ++ pair.1 ++ "\n\n**Error:** " ++
    errorMessage ++ pair.2

/-- The searching branch of the try-block: second status update, fetch of
recent messages, and the scan for an uploaded image; yields the source
description and the target URL when found. -/
def vectorizeFindUpload (deps : VectorizeDeps) :
    Except String (Option (String × String)) := do
  _ ← deps.statusSearching
  let msgs ← deps.conversationMessages
  match findUploadedImage msgs with
  | some f =>
    pure (some ("uploaded image (" ++ jsShowOpt f.name ++ ")",
      (f.url_private).getD ""))
  | none => pure none

/-- The try-block of vectorizeImageTool.execute (vectorize-image.ts): first
status update; when no truthy imageUrl was given, the uploaded-image search
with its early "no image found" return; then the vectorizing status update,
the SLACK_BOT_TOKEN guard, the Slack file-id extraction, the files.info
download-URL lookup, and the vectorizer.ai call; guard failures are thrown
and, like every rejected await, land in the catch clause. -/
def vectorizeBody (imageUrl : Option String) (opts : VectorizeOptions)
    (deps : VectorizeDeps) : Except String (List Msg) := do
  _ ← deps.statusLooking
  let found ←
    (match imageUrl with
     | some u =>
       if strTruthy u then pure (some ("image from " ++ u, u))
       else vectorizeFindUpload deps
     | none => vectorizeFindUpload deps)
  match found with
  | none => pure [⟨.user, noImageFoundMessage⟩]
  | some (source, targetUrl) => do
    _ ← deps.statusVectorizing
    if !deps.botTokenConfigured then
      throw "Slack bot token not configured"
    else
      match extractFileId targetUrl with
      | none => throw "Could not extract file ID from Slack URL"
      | some _fileId => do
        let dl ← deps.fileInfoDownloadUrl
        match dl with
        | none => throw "Could not get file download URL from Slack API"
        | some dlu =>
          if !(strTruthy dlu) then
            throw "Could not get file download URL from Slack API"
          else do
            let result ← deps.vectorize
            pure [⟨.user, vectorizeSuccessMessage opts source result⟩]

/-- vectorizeImageTool.execute: the try-body together with its catch clause. -/
def vectorizeImageExecute (imageUrl : Option String) (opts : VectorizeOptions)
    (deps : VectorizeDeps) : List Msg :=
  match vectorizeBody imageUrl opts deps with
  | .ok msgs => msgs
  | .error e => [⟨.user, vectorizeFailureMessage e⟩]

/-! ## Theorems for claims C3, C6, C7, C8 -/

/-- C3 counterexample: the claim "the direct-message activeTools set is a
subset of the channel activeTools set, with channel-history substituted for
thread access" is false on the code: `updateChatTitleTool` is enabled by the
direct-message branch of prepareStep but absent from the channel branch. -/
theorem dm_not_subset_of_channel_tools :
    dmSubsetOfChannelModuloHistory = false ∧
    dmActiveTools.contains "updateChatTitleTool" = true ∧
    channelActiveTools.contains "updateChatTitleTool" = false := by
  decide

/-- C3 (amended): apart from `updateChatTitleTool`, which the direct-message
branch alone enables, every direct-message tool is also enabled for channels;
the direct-message branch substitutes channel-history access for
thread-specific access and never enables the thread-history tool, so it never
enables both history tools simultaneously. -/
theorem dm_tools_subset_modulo_title_and_history :
    ((dmActiveTools.filter (fun t => t != "updateChatTitleTool")).all
      (fun t => channelActiveTools.contains t)) = true ∧
    dmActiveTools.contains "getThreadMessagesTool" = false ∧
    dmActiveTools.contains "getChannelMessagesTool" = true ∧
    channelActiveTools.contains "getThreadMessagesTool" = true ∧
    dmActiveTools.contains "updateChatTitleTool" = true ∧
    channelActiveTools.contains "updateChatTitleTool" = false := by
  decide

/-- C6 counterexample: the inventory tool performs no numeric check —
`"abc"` is not a digit string, yet checkInventoryTool's validation accepts it
and the execution proceeds to the upstream Sage Connect request. -/
theorem check_inventory_forwards_non_numeric_id :
    isNumericId "abc" = false ∧
    checkInventoryCallsUpstream "abc" = true ∧
    checkInventoryValidation "abc" = .proceed := by
  decide

/-- C6 (amended): the product-detail tool strictly validates numeric
identifiers — any identifier that is not a non-empty digit string is rejected
with a corrective message and no upstream request is made — while the
inventory tool's only guard is `validateProductId`, which accepts every
identifier whose trimmed form is non-empty, numeric or not. -/
theorem product_id_validation_amended (s : String) (h : isNumericId s = false) :
    productDetailCallsUpstream s = false ∧
    (∃ m, productDetailValidation s = .reject m) ∧
    checkInventoryCallsUpstream s = validateProductId s := by
  refine ⟨?_, ?_, ?_⟩
  · simp [productDetailCallsUpstream, productDetailValidation, h]
  · exact ⟨"Please use the numeric Product ID (prodEId) like \"783712495\", not the SPC code \"" ++ s ++ "\". You can find the numeric ID in the search results.",
      by simp [productDetailValidation, h]⟩
  · unfold checkInventoryCallsUpstream checkInventoryValidation
    cases hv : validateProductId s <;> simp [hv]

/-- Witness for `product_id_validation_amended` at the concrete identifier
"abc". -/
theorem product_id_validation_amended_witness :
    isNumericId "abc" = false ∧
    (productDetailCallsUpstream "abc" = false ∧
     (∃ m, productDetailValidation "abc" = .reject m) ∧
     checkInventoryCallsUpstream "abc" = validateProductId "abc") :=
  ⟨by decide, product_id_validation_amended "abc" (by decide)⟩

/-- C7: for every recency filter other than "any", the Exa request's
start-published-date equals the current time minus the enum's lookback
(past_day: 1 day, past_week: 7, past_month: 30, past_3_months: 90,
past_year: 365 days in milliseconds), and for "any" no date bound is set. -/
theorem start_published_date_matches_lookback (now : Int) :
    startPublishedDate now .pastDay = some (now - 1 * msPerDay) ∧
    startPublishedDate now .pastWeek = some (now - 7 * msPerDay) ∧
    startPublishedDate now .pastMonth = some (now - 30 * msPerDay) ∧
    startPublishedDate now .past3Months = some (now - 90 * msPerDay) ∧
    startPublishedDate now .pastYear = some (now - 365 * msPerDay) ∧
    startPublishedDate now .anyTime = none := by
  refine ⟨?_, ?_, ?_, ?_, ?_, rfl⟩ <;> norm_num [startPublishedDate, msPerDay]

/-- C8: the "Search criteria cannot be empty" branch of validateSearchRequest
is unreachable through searchProductsTool: the tool always builds the search
object with all nine criteria keys present (possibly `undefined`), so
`Object.keys` yields nine names; in particular a request with no criteria at
all passes validation and is forwarded to the upstream API. -/
theorem empty_criteria_rejection_unreachable :
    (∀ a : SearchArgs,
        (objectKeys (buildSearchObject a)).length = 9 ∧
        (validateSearchRequest (buildSearchObject a)).error ≠
          some "Search criteria cannot be empty") ∧
    validateSearchRequest (buildSearchObject {}) = ⟨true, none⟩ := by
  constructor
  · intro a
    constructor
    · rfl
    · unfold validateSearchRequest
      split
      · simp_all [objectKeys, buildSearchObject]
      · split
        · split
          · simp
          · split
            · split <;> simp
            · simp
        · split
          · split <;> simp
          · simp
  · rfl

/-- C5 counterexample: in memory-tools.ts, a memory search with no explicit
user_id resolves the default subject identifier from the bot id in the
Context Carrier, not from the invoking user's id: with botId "B0WXYZ" and
invoking user "U12345" the subject is "slack_B0WXYZ", and it is unchanged
when a different user "U99999" invokes, so the operation is not scoped to the
invoking user. -/
theorem memory_default_subject_uses_bot_id :
    memoryToolsEffectiveUserId none
        (some ⟨some "C1", some "T1", some "B0WXYZ", some "U12345"⟩) = "slack_B0WXYZ" ∧
    memoryToolsEffectiveUserId none
        (some ⟨some "C1", some "T1", some "B0WXYZ", some "U99999"⟩) =
      memoryToolsEffectiveUserId none
        (some ⟨some "C1", some "T1", some "B0WXYZ", some "U12345"⟩) ∧
    "slack_B0WXYZ" ≠ "slack_U12345" := by
  decide

/-- C5 (amended): when no explicit user_id is supplied, the part_003 variant
of the memory tools (search, save, get-all, add-conversation) resolves the
default subject identifier from the invoking user's id in the Context Carrier
("slack_" ++ userId), whereas the memory-tools.ts variant resolves it from the
bot id ("slack_" ++ botId), scoping memory to the bot rather than the invoking
user; in both variants an explicitly supplied non-empty user_id takes
precedence. -/
theorem memory_default_subject_amended (ctx : ExperimentalContext) :
    memoryToolsP3EffectiveUserId none (some ctx) =
      "slack_" ++ jsOrStr ctx.userId "unknown" ∧
    memoryToolsEffectiveUserId none (some ctx) =
      "slack_" ++ jsOrStr ctx.botId "unknown" ∧
    (∀ s, strTruthy s = true →
      memoryToolsP3EffectiveUserId (some s) (some ctx) = s ∧
      memoryToolsEffectiveUserId (some s) (some ctx) = s) := by
  refine ⟨rfl, rfl, ?_⟩
  intro s hs
  constructor <;> simp [memoryToolsP3EffectiveUserId, memoryToolsEffectiveUserId, jsOrStr, hs]

/-- Witness for `memory_default_subject_amended` at a concrete carrier and a
concrete explicit user_id. -/
theorem memory_default_subject_amended_witness :
    memoryToolsP3EffectiveUserId none
        (some ⟨none, none, some "B1", some "U1"⟩) = "slack_U1" ∧
    memoryToolsEffectiveUserId none
        (some ⟨none, none, some "B1", some "U1"⟩) = "slack_B1" ∧
    (memoryToolsP3EffectiveUserId (some "EXPLICIT")
        (some ⟨none, none, some "B1", some "U1"⟩) = "EXPLICIT" ∧
     memoryToolsEffectiveUserId (some "EXPLICIT")
        (some ⟨none, none, some "B1", some "U1"⟩) = "EXPLICIT") := by
  have h := memory_default_subject_amended ⟨none, none, some "B1", some "U1"⟩
  exact ⟨h.1, h.2.1, h.2.2 "EXPLICIT" (by decide)⟩

/-- C9: a request whose body has type 'url_verification' and a truthy
challenge is answered with the challenge value by each of the three webhook
endpoints before the Bolt handler path (handler creation, app initialization,
event handling) is entered; no other processing occurs. events.post.ts and
slack-verify.post.ts answer with the plain-text challenge, the part_008
endpoint with a JSON body carrying the challenge. -/
theorem url_verification_short_circuits (b : SlackBody) (c : String)
    (handler : Except String String)
    (htype : b.bodyType = some "url_verification")
    (hch : b.challenge = some c) (hc : strTruthy c = true) :
    eventsEndpoint b handler = ⟨.ok (.challengeText c), false⟩ ∧
    slackVerifyEndpoint b handler = ⟨.ok (.challengeText c), false⟩ ∧
    part008Endpoint b handler = ⟨.ok (.challengeJson c), false⟩ := by
  have hv : isUrlVerification b = true := by
    simp [isUrlVerification, htype, hch, hc]
  refine ⟨?_, ?_, ?_⟩ <;>
    simp [eventsEndpoint, slackVerifyEndpoint, part008Endpoint, hv, hch]

/-- Witness for `url_verification_short_circuits` on a concrete verification
body and a failing handler oracle. -/
theorem url_verification_short_circuits_witness :
    eventsEndpoint ⟨some "url_verification", some "chal42"⟩ (.error "down") =
      ⟨.ok (.challengeText "chal42"), false⟩ ∧
    slackVerifyEndpoint ⟨some "url_verification", some "chal42"⟩ (.error "down") =
      ⟨.ok (.challengeText "chal42"), false⟩ ∧
    part008Endpoint ⟨some "url_verification", some "chal42"⟩ (.error "down") =
      ⟨.ok (.challengeJson "chal42"), false⟩ :=
  url_verification_short_circuits ⟨some "url_verification", some "chal42"⟩
    "chal42" (.error "down") rfl rfl (by decide)

/-- C10: on a non-verification request, any error thrown while handling the
event is converted by slack-verify.post.ts into the successful `{ ok: true }`
acknowledgement — that endpoint never surfaces a handler error to the HTTP
caller — whereas events.post.ts rethrows the same error. -/
theorem slack_verify_absorbs_handler_errors (b : SlackBody) (e : String)
    (h : isUrlVerification b = false) :
    slackVerifyEndpoint b (.error e) = ⟨.ok .okAck, true⟩ ∧
    (∀ handler : Except String String,
      ∃ r, (slackVerifyEndpoint b handler).response = .ok r) ∧
    (eventsEndpoint b (.error e)).response = .error e := by
  refine ⟨?_, ?_, ?_⟩
  · simp [slackVerifyEndpoint, h]
  · intro handler
    cases handler <;> simp [slackVerifyEndpoint, h]
  · simp [eventsEndpoint, h]

/-- Witness for `slack_verify_absorbs_handler_errors` on a concrete event
body whose handler fails with a fatal model-call error. -/
theorem slack_verify_absorbs_handler_errors_witness :
    slackVerifyEndpoint ⟨some "event_callback", none⟩ (.error "model down") =
      ⟨.ok .okAck, true⟩ ∧
    (∀ handler : Except String String,
      ∃ r, (slackVerifyEndpoint ⟨some "event_callback", none⟩ handler).response = .ok r) ∧
    (eventsEndpoint ⟨some "event_callback", none⟩ (.error "model down")).response =
      .error "model down" :=
  slack_verify_absorbs_handler_errors ⟨some "event_callback", none⟩ "model down"
    (by decide)

/-- The number of model calls a run makes never exceeds the starting call
count plus the remaining turn budget. -/
theorem runLoop_modelCalls_le (model : Transcript → Except String StepResult)
    (execTool : ToolCall → Msg) :
    ∀ (fuel : Nat) (t : Transcript) (calls : Nat) (out : RunOutcome),
      runLoop model execTool fuel t calls = .ok out →
      out.modelCalls ≤ calls + fuel := by
  intro fuel
  induction fuel with
  | zero =>
    intro t calls out h
    simp only [runLoop, Except.ok.injEq] at h
    subst h
    exact Nat.le_add_right calls 0
  | succ n ih =>
    intro t calls out h
    cases hm : model t with
    | error e => simp [runLoop, hm] at h
    | ok step =>
      cases he : step.toolCalls.isEmpty with
      | true =>
        simp [runLoop, hm, he] at h
        subst h
        show calls + 1 ≤ calls + (n + 1)
        omega
      | false =>
        by_cases hn : n = 0
        · simp [runLoop, hm, he, hn] at h
          subst h
          show calls + 1 ≤ calls + (n + 1)
          omega
        · simp [runLoop, hm, he, hn] at h
          have := ih _ _ _ h
          omega

/-- Against a model that requests tool calls on every turn, any positive turn
budget is consumed in full and the run ends budget-exhausted after exactly
`calls + fuel` model calls. -/
theorem runLoop_always_tool_exhausts (model : Transcript → Except String StepResult)
    (execTool : ToolCall → Msg)
    (hmodel : ∀ t, ∃ step, model t = .ok step ∧ step.toolCalls ≠ []) :
    ∀ (fuel : Nat), 0 < fuel → ∀ (t : Transcript) (calls : Nat),
      ∃ txt, runLoop model execTool fuel t calls =
        .ok ⟨txt, calls + fuel, .budgetExhausted⟩ := by
  intro fuel
  induction fuel with
  | zero => intro h; omega
  | succ n ih =>
    intro _ t calls
    obtain ⟨step, hs, hne⟩ := hmodel t
    have hne2 : step.toolCalls.isEmpty = false := by
      cases hl : step.toolCalls with
      | nil => exact absurd hl hne
      | cons a l => rfl
    by_cases hn : n = 0
    · subst hn
      exact ⟨step.text, by simp [runLoop, hs, hne2]⟩
    · obtain ⟨txt, htxt⟩ :=
        ih (Nat.pos_of_ne_zero hn)
          (t ++ [⟨.assistant, step.text⟩] ++ step.toolCalls.map execTool)
          (calls + 1)
      refine ⟨txt, ?_⟩
      have harith : calls + 1 + n = calls + (n + 1) := by omega
      rw [harith] at htxt
      simp only [List.append_assoc, List.singleton_append] at htxt
      simp [runLoop, hs, hne2, hn, htxt]

/-- C1: every run of respondToMessage makes at most 5 model calls (the
configured `stepCountIs(5)` cap); and against a model that requests tool
calls on every turn, the run terminates at exactly 5 model calls in the
budget-exhausted terminal state, respondToMessage returning whatever last
text the model produced (possibly empty). -/
theorem model_calls_bounded_by_turn_cap
    (model : Transcript → Except String StepResult) (execTool : ToolCall → Msg)
    (messages : Transcript) :
    (∀ out, respondToMessageRun model execTool messages = .ok out →
      out.modelCalls ≤ 5) ∧
    ((∀ t, ∃ step, model t = .ok step ∧ step.toolCalls ≠ []) →
      ∃ txt, respondToMessageRun model execTool messages =
          .ok ⟨txt, 5, .budgetExhausted⟩ ∧
        respondToMessage model execTool messages = .ok txt) := by
  constructor
  · intro out h
    have := runLoop_modelCalls_le model execTool 5 messages 0 out h
    omega
  · intro hmodel
    obtain ⟨txt, htxt⟩ :=
      runLoop_always_tool_exhausts model execTool hmodel 5 (by omega) messages 0
    refine ⟨txt, htxt, ?_⟩
    simp only [respondToMessage, respondToMessageRun] at htxt ⊢
    rw [htxt]

/-- Witness for `model_calls_bounded_by_turn_cap`: the always-tool-calling
mock model exhausts the budget at exactly 5 model calls with empty text. -/
theorem model_calls_bounded_by_turn_cap_witness :
    respondToMessageRun alwaysToolModel mockExecTool [] =
      .ok ⟨"", 5, .budgetExhausted⟩ ∧
    respondToMessage alwaysToolModel mockExecTool [] = .ok "" ∧
    (RunOutcome.mk "" 5 .budgetExhausted).modelCalls ≤ 5 := by
  have h1 := (model_calls_bounded_by_turn_cap alwaysToolModel mockExecTool []).1
    ⟨"", 5, .budgetExhausted⟩ (by rfl)
  have _h2 := (model_calls_bounded_by_turn_cap alwaysToolModel mockExecTool []).2
    (fun t => ⟨⟨"", [⟨"search_web", "q"⟩]⟩, rfl, by decide⟩)
  exact ⟨by rfl, by rfl, h1⟩

/-- C4: a failure of the model call itself is not caught and converted by
respondToMessage — the loop propagates it, the try/catch rethrows it, the
caller receives exactly that error and no text answer is ever returned. -/
theorem model_failure_propagates
    (model : Transcript → Except String StepResult) (execTool : ToolCall → Msg)
    (messages : Transcript) (e : String) (h : model messages = .error e) :
    respondToMessage model execTool messages = .error e ∧
    ∀ txt, respondToMessage model execTool messages ≠ .ok txt := by
  have hrun : respondToMessageRun model execTool messages = .error e := by
    simp only [respondToMessageRun]
    rw [show (5 : Nat) = 4 + 1 from rfl]
    simp [runLoop, h]
  constructor
  · simp [respondToMessage, hrun]
  · intro txt
    simp [respondToMessage, hrun]

/-- Witness for `model_failure_propagates` with a concretely unreachable
model endpoint. -/
theorem model_failure_propagates_witness :
    respondToMessage failingModel mockExecTool [] =
      .error "model endpoint unreachable" :=
  (model_failure_propagates failingModel mockExecTool [] "model endpoint unreachable" rfl).1

/-- Every successful outcome of the computation is a single-message list. -/
def AllSingleton (r : Except String (List Msg)) : Prop :=
  ∀ msgs, r = .ok msgs → msgs.length = 1

/-- A returned one-message array satisfies the singleton invariant. -/
theorem allSingleton_ok (m : Msg) : AllSingleton (Except.ok [m]) := by
  intro msgs h
  cases h
  rfl

/-- A thrown error trivially satisfies the singleton invariant. -/
theorem allSingleton_error (e : String) : AllSingleton (Except.error e) := by
  intro msgs h
  cases h

/-- Sequencing preserves the singleton invariant. -/
theorem allSingleton_bind {α : Type} (x : Except String α)
    (f : α → Except String (List Msg)) (hf : ∀ a, AllSingleton (f a)) :
    AllSingleton (x >>= f) := by
  intro msgs h
  cases x with
  | error e => simp [Bind.bind, Except.bind] at h
  | ok a => exact hf a msgs (by simpa [Bind.bind, Except.bind] using h)

/-- Every successful path of webSearchTool's try-body yields exactly one
message. -/
theorem webSearchBody_allSingleton (q : String) (d : Option String)
    (deps : WebSearchDeps) : AllSingleton (webSearchBody q d deps) := by
  unfold webSearchBody
  refine allSingleton_bind _ _ (fun _ => ?_)
  refine allSingleton_bind _ _ (fun results => ?_)
  split <;> exact allSingleton_ok _

/-- Every successful path of searchProductsTool's try-body yields exactly one
message. -/
theorem searchProductsBody_allSingleton (a : SearchArgs)
    (deps : ProductSearchDeps) : AllSingleton (searchProductsBody a deps) := by
  unfold searchProductsBody
  refine allSingleton_bind _ _ (fun _ => ?_)
  by_cases hv : (validateSearchRequest (buildSearchObject a)).isValid = false
  · simp [hv]
    exact allSingleton_ok _
  · simp [hv]
    refine allSingleton_bind _ _ (fun _ => ?_)
    refine allSingleton_bind _ _ (fun results => ?_)
    split <;> exact allSingleton_ok _

/-- Every successful path of vectorizeImageTool's try-body yields exactly one
message. -/
theorem vectorizeBody_allSingleton (u : Option String) (o : VectorizeOptions)
    (deps : VectorizeDeps) : AllSingleton (vectorizeBody u o deps) := by
  unfold vectorizeBody
  refine allSingleton_bind _ _ (fun _ => ?_)
  refine allSingleton_bind _ _ (fun found => ?_)
  cases found with
  | none => exact allSingleton_ok _
  | some p =>
    obtain ⟨source, targetUrl⟩ := p
    refine allSingleton_bind _ _ (fun _ => ?_)
    cases hbt : deps.botTokenConfigured with
    | false => simp; exact allSingleton_error _
    | true =>
      simp
      cases hef : extractFileId targetUrl with
      | none => exact allSingleton_error _
      | some fid =>
        refine allSingleton_bind _ _ (fun dl => ?_)
        cases dl with
        | none => exact allSingleton_error _
        | some dlu =>
          by_cases hdl : strTruthy dlu
          · simp [hdl]
            refine allSingleton_bind _ _ (fun result => ?_)
            exact allSingleton_ok _
          · simp [hdl]
            exact allSingleton_error _

/-- C2: each tool adapter's execute returns a Tool Result and never throws
past its own boundary — for webSearchTool, searchProductsTool and
vectorizeImageTool, every combination of input and dependency outcomes yields
exactly one tool-result message, and whenever the try-body raises an error
(upstream API failure included) the returned message is the adapter's
descriptive failure text embedding that error, with remediation hints where
the failure mode is recognizable. -/
theorem adapters_never_throw :
    (∀ q d deps, (webSearchExecute q d deps).length = 1) ∧
    (∀ q d deps e, webSearchBody q d deps = .error e →
      webSearchExecute q d deps =
        [⟨.user, "Web search failed: " ++ e ++ ". Please try again with a different search query."⟩]) ∧
    (∀ a deps, (searchProductsExecute a deps).length = 1) ∧
    (∀ a deps e, searchProductsBody a deps = .error e →
      searchProductsExecute a deps =
        [⟨.user, "Product search failed: " ++ e ++ ". Please try again or contact your administrator."⟩]) ∧
    (∀ u o deps, (vectorizeImageExecute u o deps).length = 1) ∧
    (∀ u o deps e, vectorizeBody u o deps = .error e →
      vectorizeImageExecute u o deps = [⟨.user, vectorizeFailureMessage e⟩]) := by
  refine ⟨?_, ?_, ?_, ?_, ?_, ?_⟩
  · intro q d deps
    cases hb : webSearchBody q d deps with
    | ok msgs =>
      simp only [webSearchExecute, hb]
      exact webSearchBody_allSingleton q d deps msgs hb
    | error e => simp only [webSearchExecute, hb, List.length_singleton]
  · intro q d deps e h
    simp only [webSearchExecute, h]
  · intro a deps
    cases hb : searchProductsBody a deps with
    | ok msgs =>
      simp only [searchProductsExecute, hb]
      exact searchProductsBody_allSingleton a deps msgs hb
    | error e => simp only [searchProductsExecute, hb, List.length_singleton]
  · intro a deps e h
    simp only [searchProductsExecute, h]
  · intro u o deps
    cases hb : vectorizeBody u o deps with
    | ok msgs =>
      simp only [vectorizeImageExecute, hb]
      exact vectorizeBody_allSingleton u o deps msgs hb
    | error e => simp only [vectorizeImageExecute, hb, List.length_singleton]
  · intro u o deps e h
    simp only [vectorizeImageExecute, h]

/-- Witness for `adapters_never_throw` at concrete inputs whose upstream
calls fail. -/
theorem adapters_never_throw_witness :
    webSearchExecute "q" none ⟨.ok (), .error "network down"⟩ =
      [⟨.user, "Web search failed: network down. Please try again with a different search query."⟩] ∧
    searchProductsExecute {} ⟨.ok (), .ok (), .error "HTTP 500: Internal Server Error"⟩ =
      [⟨.user, "Product search failed: HTTP 500: Internal Server Error. Please try again or contact your administrator."⟩] ∧
    vectorizeImageExecute
        (some "https://files.slack.com/files-pri/T0E5Y74JD-F09CQ6XXX/logo.jpg") {}
        ⟨.ok (), .ok (), .ok [], .ok (), true, .ok (some "https://dl.example"),
          .error "API error 401"⟩ =
      [⟨.user, vectorizeFailureMessage "API error 401"⟩] := by
  refine ⟨?_, ?_, ?_⟩
  · exact adapters_never_throw.2.1 "q" none ⟨.ok (), .error "network down"⟩
      "network down" (by rfl)
  · exact adapters_never_throw.2.2.2.1 {}
      ⟨.ok (), .ok (), .error "HTTP 500: Internal Server Error"⟩
      "HTTP 500: Internal Server Error" (by rfl)
  · exact adapters_never_throw.2.2.2.2.2
      (some "https://files.slack.com/files-pri/T0E5Y74JD-F09CQ6XXX/logo.jpg") {}
      ⟨.ok (), .ok (), .ok [], .ok (), true, .ok (some "https://dl.example"),
        .error "API error 401"⟩
      "API error 401" (by rfl)
